import Mathlib

/-!
Shallow embedding of the `MockDataGenerator` class of
`src/services/mockService.ts` (repository `fahroediin/mockel`), together with
the type declarations of `src/types/index.ts` that it consumes.

Modelling conventions:
* JavaScript numbers are modelled with exact rationals (`ℚ`).  Constraint
  fields that are semantically integer-valued (lengths, item counts, digit
  counts, word counts, the record count) are modelled with `Int` so that the
  negative values the TypeScript type allows remain representable; the
  real-valued `min`/`max` bounds are modelled with `ℚ`.
* `Math.random()` is modelled as a stream of draws `g : Nat → ℚ` carried in an
  environment together with the current clock value (`new Date()` used as the
  default `endDate`).  Each generator takes the index of the next unused draw
  and returns the next free index, which mirrors the order in which the
  JavaScript code calls `Math.random()` (including the `&&` short circuit in
  the null-injection test).  The predicate `EnvOk` records the guarantee
  `0 ≤ Math.random() < 1`.
* A JavaScript exception (the `RangeError` that `Number.prototype.toFixed`
  raises for digit counts outside `[0, 100]`, and the `RangeError` that
  `Date.prototype.toISOString` raises for an invalid time value) is modelled
  by `Option`: `none` is a raised error, and it propagates outward exactly as
  an uncaught exception does.
* The `startDate`/`endDate` constraints are strings fed to `new Date(s)`.
  The embedding stores the *parse result* of that expression:
  `some (some t)` is a string parsing to epoch milliseconds `t`,
  `some none` is a string parsing to an Invalid Date, and `none` is an
  absent (or empty, hence falsy) constraint.
* Out-of-range list indexing yields `undefined` in JavaScript, which a
  template literal renders as the text `"undefined"`; `pickD`/`pickNumStr`
  reproduce that.  Under `EnvOk` every index is in range.
* ECMAScript `toFixed` and `Math.round` round half toward `+∞`
  (`n / 10^f - x` closest to zero, larger `n` on ties), which is exactly
  Mathlib's `round` on `ℚ`.
* `toISOString`'s extended-year rendering (years outside `0..9999`) is not
  reproduced digit-for-digit (years are zero-padded to four digits); no claim
  inspects the rendered date text.
-/

namespace Mockel

/-! ## JavaScript primitives -/

/-- Code: `x || d` for an optional rational: `undefined`, `0` and `NaN`-free zero are
falsy, every other number is truthy. -/
def jsOrQ : Option ℚ → ℚ → ℚ
  | none, d => d
  | some q, d => if q = 0 then d else q

/-- Code: `x || d` for an optional integer-valued number. -/
def jsOrI : Option Int → Int → Int
  | none, d => d
  | some n, d => if n = 0 then d else n

/-- Truthiness of an optional integer-valued number. -/
def jsTruthyI : Option Int → Bool
  | none => false
  | some n => n != 0

/-- Truthiness of an optional string (the empty string is falsy). -/
def jsTruthyS : Option String → Bool
  | none => false
  | some s => s != ""

/-- Truthiness of an optional boolean. -/
def jsTruthyB : Option Bool → Bool
  | none => false
  | some b => b

/-- Truncation toward zero, as performed by `x | 0` and by
`ToIntegerOrInfinity`. -/
def jsTrunc (q : ℚ) : Int := if q < 0 then ⌈q⌉ else ⌊q⌋

/-- Code: `Number.prototype.toFixed(digits)`: raises a `RangeError` when the digit
count lies outside `[0, 100]`, otherwise rounds (half toward `+∞`) to that
many fractional digits. -/
def jsToFixed (digits : Int) (q : ℚ) : Option ℚ :=
  if 0 ≤ digits ∧ digits ≤ 100 then
    some (((round (q * (10 : ℚ) ^ digits.toNat) : ℤ) : ℚ) / (10 : ℚ) ^ digits.toNat)
  else none

/-- Code: `list[Math.floor(r * list.length)]` interpolated into a template literal:
an out-of-range access yields `undefined`, rendered as `"undefined"`. -/
def pickD (l : List String) (r : ℚ) : String :=
  l.getD (⌊r * (l.length : ℚ)⌋).toNat "undefined"

/-- Code: `list[Math.floor(r * list.length)]` for a numeric vocabulary, rendered as
text by the surrounding template literal. -/
def pickNumStr (l : List Int) (r : ℚ) : String :=
  match l.get? (⌊r * (l.length : ℚ)⌋).toNat with
  | some n => toString n
  | none => "undefined"

/-! ## Data model (`src/types/index.ts`) -/

/-- Code: `FieldConstraints` from `src/types/index.ts`.  All members are optional. -/
structure FieldConstraints where
  minLength : Option Int := none
  maxLength : Option Int := none
  minWords : Option Int := none
  maxWords : Option Int := none
  min : Option ℚ := none
  max : Option ℚ := none
  decimal : Option Int := none
  minItems : Option Int := none
  maxItems : Option Int := none
  startDate : Option (Option Int) := none
  endDate : Option (Option Int) := none
  format : Option String := none
  itemType : Option String := none
deriving Repr, DecidableEq

/-- Code: `DataField` from `src/types/index.ts`.  The `type` member is kept as the
raw string tag (TypeScript types are erased at runtime, and imported schemas
can carry arbitrary tags).  An absent `constraints` object behaves exactly
like one with every member absent, and an absent `nestedSchema` behaves
exactly like `[]` (the code reads `nestedSchema || []`, and an empty array is
truthy, so both collapse to the same list). -/
inductive DataField : Type where
  | mk : (id name type : String) → (constraints : FieldConstraints) →
      (nestedSchema : List DataField) → DataField
deriving Repr

def DataField.id : DataField → String
  | .mk i _ _ _ _ => i

def DataField.name : DataField → String
  | .mk _ n _ _ _ => n

def DataField.type : DataField → String
  | .mk _ _ t _ _ => t

def DataField.constraints : DataField → FieldConstraints
  | .mk _ _ _ c _ => c

def DataField.nestedSchema : DataField → List DataField
  | .mk _ _ _ _ ns => ns

/-- Code: `Schema` from `src/types/index.ts`. -/
structure Schema where
  id : String
  name : String
  description : Option String := none
  fields : List DataField

/-- Code: `GenerationConfig` from `src/types/index.ts`.  `recordCount` is declared
`number`; the spec's data model restricts it to integers, which `Int` keeps
(negative counts included, as the clamping claim needs them). -/
structure GenerationConfig where
  recordCount : Int
  includeNulls : Option Bool := none
  seed : Option ℚ := none

/-- The fourteen tags of the closed `DataType` enumeration. -/
def knownTypeTags : List String :=
  ["string", "number", "boolean", "object", "array",
   "person_name", "product_name", "address", "email",
   "image_url", "paragraph", "uuid", "date", "price"]

/-- The recognized tags whose synthesized value is a scalar (never an object,
an array, or `null`). -/
def scalarTypeTags : List String :=
  ["string", "number", "boolean",
   "person_name", "product_name", "address", "email",
   "image_url", "paragraph", "uuid", "date", "price"]

/-- The ambient state the generator reads: the `Math.random()` draw stream and
the current clock (`new Date()`), in epoch milliseconds. -/
structure Env where
  g : Nat → ℚ
  now : Int

/-- What ECMAScript guarantees of `Math.random()`. -/
def EnvOk (e : Env) : Prop := ∀ i, 0 ≤ e.g i ∧ e.g i < 1

/-! ## Per-type generators (`MockDataGenerator`, lines 55–171) -/

def adjectives : List String :=
  ["Beautiful", "Smart", "Fast", "Creative", "Modern", "Classic", "Premium", "Basic"]

def nouns : List String :=
  ["Product", "Service", "Solution", "Platform", "System", "Application", "Tool", "Framework"]

/-- The base `"adjective noun"` phrase of `generateString` (line 59). -/
def stringPhrase (e : Env) (k : Nat) : String × Nat :=
  (pickD adjectives (e.g k) ++ " " ++ pickD nouns (e.g (k + 1)), k + 2)

/-- Code: `if (constraints?.minLength && result.length < constraints.minLength)
result = result.padEnd(constraints.minLength, 'x')` (lines 61–63). -/
def padMin (ml : Option Int) (s : String) : String :=
  match ml with
  | some n => if n ≠ 0 ∧ (s.length : Int) < n then
      s ++ String.mk (List.replicate (n.toNat - s.length) 'x')
    else s
  | none => s

/-- Code: `if (constraints?.maxLength && result.length > constraints.maxLength)
result = result.substring(0, constraints.maxLength)` (lines 65–67). -/
def truncMax (ml : Option Int) (s : String) : String :=
  match ml with
  | some m => if m ≠ 0 ∧ m < (s.length : Int) then
      String.mk (s.toList.take m.toNat)
    else s
  | none => s

/-- Code: `generateString` (lines 55–70). -/
def generateString (c : FieldConstraints) (e : Env) (k : Nat) : String × Nat :=
  let p := stringPhrase e k
  (truncMax c.maxLength (padMin c.minLength p.1), p.2)

/-- Code: `generateNumber` (lines 72–79): `Math.random() * (max - min) + min`,
then `toFixed(decimal)` (which can raise). -/
def generateNumber (c : FieldConstraints) (e : Env) (k : Nat) : Option (ℚ × Nat) :=
  let m := jsOrQ c.min 0
  let M := jsOrQ c.max 100
  let d := jsOrI c.decimal 0
  (jsToFixed d (e.g k * (M - m) + m)).map fun q => (q, k + 1)

/-- Code: `Math.random() * 16 | 0` (line 83). -/
def hexRand (e : Env) (k : Nat) : Nat := (jsTrunc (e.g k * 16)).toNat

def uuidTemplate : List Char := "xxxxxxxx-xxxx-4xxx-yxxx-xxxxxxxxxxxx".toList

/-- The character-by-character `replace(/[xy]/g, ...)` of `generateUUID`:
`x ↦ r.toString(16)`, `y ↦ (r & 0x3 | 0x8).toString(16)`, other characters
copied without consuming a draw. -/
def uuidChars (e : Env) : List Char → Nat → List Char × Nat
  | [], k => ([], k)
  | c :: cs, k =>
    if c = 'x' then
      let rest := uuidChars e cs (k + 1)
      (Nat.digitChar (hexRand e k) :: rest.1, rest.2)
    else if c = 'y' then
      let rest := uuidChars e cs (k + 1)
      (Nat.digitChar (((hexRand e k).land 3).lor 8) :: rest.1, rest.2)
    else
      let rest := uuidChars e cs k
      (c :: rest.1, rest.2)

/-- Code: `generateUUID` (lines 81–87). -/
def generateUUID (e : Env) (k : Nat) : String × Nat :=
  let p := uuidChars e uuidTemplate k
  (String.mk p.1, p.2)

/-- Epoch milliseconds of `new Date(2020, 0, 1)` (taken at UTC; the
constructor uses the local zone, but no claim depends on the offset). -/
def epoch2020 : Int := 1577836800000

/-- The largest representable time value (`8.64e15` ms); beyond it a `Date`
is invalid and `toISOString` raises. -/
def maxTimeValue : Int := 8640000000000000

/-- The effective time bound: absent constraint → default; present but
unparseable constraint → Invalid Date (`none`). -/
def dateBound (raw : Option (Option Int)) (dflt : Int) : Option Int :=
  match raw with
  | none => some dflt
  | some t => t

/-- Two-digit zero padding. -/
def pad2 (n : Nat) : String := if n < 10 then "0" ++ toString n else toString n

/-- Three-digit zero padding. -/
def pad3 (n : Nat) : String :=
  if n < 10 then "00" ++ toString n
  else if n < 100 then "0" ++ toString n
  else toString n

/-- Four-digit zero padding. -/
def pad4 (n : Nat) : String :=
  if n < 10 then "000" ++ toString n
  else if n < 100 then "00" ++ toString n
  else if n < 1000 then "0" ++ toString n
  else toString n

/-- Gregorian civil date from days since the epoch (standard era-based
conversion): year, month, day. -/
def civilFromDays (z0 : Int) : Int × Nat × Nat :=
  let z := z0 + 719468
  let era : Int := (if 0 ≤ z then z else z - 146096).tdiv 146097
  let doe : Int := z - era * 146097
  let yoe : Int := (doe - doe.tdiv 1460 + doe.tdiv 36524 - doe.tdiv 146096).tdiv 365
  let y : Int := yoe + era * 400
  let doy : Int := doe - (365 * yoe + yoe.tdiv 4 - yoe.tdiv 100)
  let mp : Int := (5 * doy + 2).tdiv 153
  let d : Int := doy - (153 * mp + 2).tdiv 5 + 1
  let m : Int := mp + (if mp < 10 then 3 else -9)
  (y + (if m ≤ 2 then 1 else 0), m.toNat, d.toNat)

/-- Code: `Date.prototype.toISOString` for a valid time value. -/
def isoOfTime (t : Int) : String :=
  let msOfDay := t.emod 86400000
  let days := (t - msOfDay).tdiv 86400000
  let c := civilFromDays days
  let hh := (msOfDay.tdiv 3600000).toNat
  let mi := ((msOfDay.tdiv 60000).emod 60).toNat
  let ss := ((msOfDay.tdiv 1000).emod 60).toNat
  let ms := (msOfDay.emod 1000).toNat
  pad4 c.1.toNat ++ "-" ++ pad2 c.2.1 ++ "-" ++ pad2 c.2.2 ++ "T" ++
    pad2 hh ++ ":" ++ pad2 mi ++ ":" ++ pad2 ss ++ "." ++ pad3 ms ++ "Z"

/-- Code: `toISOString().split('T')[0]`: the date-only part. -/
def isoDateOnly (t : Int) : String :=
  let msOfDay := t.emod 86400000
  let days := (t - msOfDay).tdiv 86400000
  let c := civilFromDays days
  pad4 c.1.toNat ++ "-" ++ pad2 c.2.1 ++ "-" ++ pad2 c.2.2

/-- Code: `generateDate` (lines 89–100).  The draw is consumed unconditionally; an
invalid or out-of-range time value makes `toISOString` raise (`none`). -/
def generateDate (c : FieldConstraints) (e : Env) (k : Nat) : Option (String × Nat) :=
  match dateBound c.startDate epoch2020, dateBound c.endDate e.now with
  | some s, some f =>
    let t := jsTrunc ((s : ℚ) + e.g k * (((f - s : Int) : ℚ)))
    if t.natAbs ≤ maxTimeValue.natAbs then
      some ((if jsTruthyS c.format then isoDateOnly t else isoOfTime t), k + 1)
    else none
  | _, _ => none

def emailDomains : List String :=
  ["gmail.com", "yahoo.com", "hotmail.com", "outlook.com", "company.com"]

def emailNames : List String :=
  ["john.doe", "jane.smith", "user123", "admin", "contact"]

/-- Code: `generateEmail` (lines 102–108). -/
def generateEmail (e : Env) (k : Nat) : String × Nat :=
  let nm := pickD emailNames (e.g k) ++ toString (⌊e.g (k + 1) * 100⌋).toNat
  let dom := pickD emailDomains (e.g (k + 2))
  (nm ++ "@" ++ dom, k + 3)

def firstNames : List String :=
  ["John", "Jane", "Michael", "Sarah", "David", "Emily", "Robert", "Lisa"]

def lastNames : List String :=
  ["Smith", "Johnson", "Williams", "Brown", "Jones", "Garcia", "Miller", "Davis"]

/-- Code: `generatePersonName` (lines 110–114). -/
def generatePersonName (e : Env) (k : Nat) : String × Nat :=
  (pickD firstNames (e.g k) ++ " " ++ pickD lastNames (e.g (k + 1)), k + 2)

def productNames : List String :=
  ["iPhone 15", "Samsung Galaxy S24", "MacBook Pro", "iPad Air",
   "AirPods Pro", "Apple Watch", "Dell XPS", "ThinkPad X1"]

/-- Code: `generateProductName` (lines 116–119). -/
def generateProductName (e : Env) (k : Nat) : String × Nat :=
  (pickD productNames (e.g k), k + 1)

def streets : List String := ["Main St", "Oak Ave", "Park Blvd", "Elm St", "Pine Rd"]

def cities : List String := ["New York", "Los Angeles", "Chicago", "Houston", "Phoenix"]

def states : List String := ["NY", "CA", "IL", "TX", "AZ"]

/-- Code: `generateAddress` (lines 121–133). -/
def generateAddress (e : Env) (k : Nat) : String × Nat :=
  let streetNumber : Int := ⌊e.g k * 9999⌋ + 1
  let street := pickD streets (e.g (k + 1))
  let city := pickD cities (e.g (k + 2))
  let state := pickD states (e.g (k + 3))
  let zip : Int := ⌊e.g (k + 4) * 90000⌋ + 10000
  (toString streetNumber ++ " " ++ street ++ ", " ++ city ++ ", " ++ state ++ " " ++
    toString zip, k + 5)

def imageWidths : List Int := [200, 400, 600, 800]

def imageHeights : List Int := [200, 300, 400, 600]

def imageCategories : List String := ["nature", "people", "technology", "animals", "food"]

/-- Code: `generateImageUrl` (lines 135–145). -/
def generateImageUrl (e : Env) (k : Nat) : String × Nat :=
  ("https://picsum.photos/" ++ pickNumStr imageWidths (e.g k) ++ "/" ++
     pickNumStr imageHeights (e.g (k + 1)) ++ "?category=" ++
     pickD imageCategories (e.g (k + 2)), k + 3)

def sentencePool : List String :=
  ["This innovative solution transforms the way businesses operate in the digital age.",
   "Our cutting-edge technology provides unparalleled performance and reliability.",
   "Experience the future of productivity with our comprehensive platform.",
   "This revolutionary approach delivers exceptional results for modern enterprises.",
   "Discover how our advanced features streamline your workflow and boost efficiency."]

/-- Code: `constraints?.minWords ? Math.max(1, Math.floor(minWords / 10)) : 3`
(line 156). -/
def paragraphCount (c : FieldConstraints) : Int :=
  match c.minWords with
  | some w => if w ≠ 0 then Max.max 1 (Int.fdiv w 10) else 3
  | none => 3

/-- The sentence-selection loop of `generateParagraph` (lines 159–161). -/
def pickSentences (e : Env) : Nat → Nat → List String × Nat
  | 0, k => ([], k)
  | n + 1, k =>
    let s := pickD sentencePool (e.g k)
    let rest := pickSentences e n (k + 1)
    (s :: rest.1, rest.2)

/-- Code: `generateParagraph` (lines 147–164). -/
def generateParagraph (c : FieldConstraints) (e : Env) (k : Nat) : String × Nat :=
  let p := pickSentences e (paragraphCount c).toNat k
  (String.intercalate " " p.1, p.2)

/-- Code: `generatePrice` (lines 166–171): `Math.round` never raises. -/
def generatePrice (c : FieldConstraints) (e : Env) (k : Nat) : ℚ × Nat :=
  let m := jsOrQ c.min 10000
  let M := jsOrQ c.max 5000000
  (((round (e.g k * (M - m) + m) : ℤ) : ℚ), k + 1)

/-! ## JSON values and object construction -/

/-- A JSON-compatible value, the codomain of the synthesizer. -/
inductive JValue : Type where
  | null : JValue
  | bool : Bool → JValue
  | num : ℚ → JValue
  | str : String → JValue
  | arr : List JValue → JValue
  | obj : List (String × JValue) → JValue

/-- Code: `obj[key] = v` on a plain JavaScript object: an existing key keeps its
insertion position and gets the new value, a new key is appended. -/
def objSet : List (String × JValue) → String → JValue → List (String × JValue)
  | [], key, v => [(key, v)]
  | (k0, v0) :: rest, key, v =>
    if k0 = key then (k0, v) :: rest else (k0, v0) :: objSet rest key v

/-- Building an object by assigning a list of entries in order into `{}`. -/
def buildObj (entries : List (String × JValue)) : List (String × JValue) :=
  entries.foldl (fun acc p => objSet acc p.1 p.2) []

/-- Code: `Math.floor(Math.random() * (maxItems - minItems + 1)) + minItems`
(lines 182–184), with the `||` defaults `1` and `5`. -/
def arrayItemCount (c : FieldConstraints) (r : ℚ) : Int :=
  let m := jsOrI c.minItems 1
  let M := jsOrI c.maxItems 5
  ⌊r * ((M - m + 1 : Int) : ℚ)⌋ + m

/-! ## The recursive synthesizer (`generateValue` / `generateObject` /
`generateArray`, lines 4–53 and 173–195) -/

mutual

/-- Code: `generateValue` (lines 4–53): dispatch on the runtime type tag; an
unrecognized tag falls to the `default: return null` arm. -/
def generateValue : DataField → Env → Nat → Option (JValue × Nat)
  | .mk _ _ ty c ns, e, k =>
    if ty = "string" then some (.str (generateString c e k).1, (generateString c e k).2)
    else if ty = "number" then (generateNumber c e k).map fun p => (.num p.1, p.2)
    else if ty = "boolean" then some (.bool (decide ((1 : ℚ)/2 < e.g k)), k + 1)
    else if ty = "uuid" then some (.str (generateUUID e k).1, (generateUUID e k).2)
    else if ty = "date" then (generateDate c e k).map fun p => (.str p.1, p.2)
    else if ty = "email" then some (.str (generateEmail e k).1, (generateEmail e k).2)
    else if ty = "person_name" then
      some (.str (generatePersonName e k).1, (generatePersonName e k).2)
    else if ty = "product_name" then
      some (.str (generateProductName e k).1, (generateProductName e k).2)
    else if ty = "address" then some (.str (generateAddress e k).1, (generateAddress e k).2)
    else if ty = "image_url" then some (.str (generateImageUrl e k).1, (generateImageUrl e k).2)
    else if ty = "paragraph" then
      some (.str (generateParagraph c e k).1, (generateParagraph c e k).2)
    else if ty = "price" then some (.num (generatePrice c e k).1, (generatePrice c e k).2)
    else if ty = "object" then (generateEntries ns e k).map fun p => (.obj (buildObj p.1), p.2)
    else if ty = "array" then
      (generateArrayElems ns (arrayItemCount c (e.g k)).toNat e (k + 1)).map
        fun p => (.arr p.1, p.2)
    else some (.null, k)
termination_by f e k => (sizeOf f, 0, 0)

/-- The `fields.forEach` body of `generateObject` (lines 173–179): one entry
per nested field, in order, sharing the draw stream. -/
def generateEntries : List DataField → Env → Nat → Option (List (String × JValue) × Nat)
  | [], _, k => some ([], k)
  | f :: fs, e, k =>
    (generateValue f e k).bind fun p =>
      (generateEntries fs e p.2).map fun q => ((f.name, p.1) :: q.1, q.2)
termination_by fs e k => (sizeOf fs, 0, 0)

/-- One array element (lines 187–192): `fields.length === 1` contributes the
single field's bare value, any other length contributes an object over all of
`fields`. -/
def genElem : List DataField → Env → Nat → Option (JValue × Nat)
  | [], e, k => (generateEntries [] e k).map fun p => (JValue.obj (buildObj p.1), p.2)
  | [f], e, k => generateValue f e k
  | f1 :: f2 :: fs, e, k =>
    (generateEntries (f1 :: f2 :: fs) e k).map fun p => (JValue.obj (buildObj p.1), p.2)
termination_by fs e k => (sizeOf fs, 1, 0)

/-- The element loop of `generateArray` (lines 186–193). -/
def generateArrayElems (fs : List DataField) : Nat → Env → Nat → Option (List JValue × Nat)
  | 0, _, k => some ([], k)
  | n + 1, e, k =>
    (genElem fs e k).bind fun p =>
      (generateArrayElems fs n e p.2).map fun q => (p.1 :: q.1, q.2)
termination_by n e k => (sizeOf fs, 2, n)

end

/-! ## The record loop (`generateMockData`, lines 197–215) -/

/-- One record's `schema.fields.forEach` body: the null-injection test
`config.includeNulls && Math.random() < 0.1` consumes a draw only when
`includeNulls` is truthy. -/
def genRecordEntries :
    List DataField → Bool → Env → Nat → Option (List (String × JValue) × Nat)
  | [], _, _, k => some ([], k)
  | f :: fs, inc, e, k =>
    if inc then
      if e.g k < 1/10 then
        (genRecordEntries fs inc e (k + 1)).map fun q =>
          ((f.name, JValue.null) :: q.1, q.2)
      else
        (generateValue f e (k + 1)).bind fun p =>
          (genRecordEntries fs inc e p.2).map fun q => ((f.name, p.1) :: q.1, q.2)
    else
      (generateValue f e k).bind fun p =>
        (genRecordEntries fs inc e p.2).map fun q => ((f.name, p.1) :: q.1, q.2)

/-- The `for (let i = 0; i < config.recordCount; i++)` loop, iterated a fixed
number of times. -/
def genRecords (fields : List DataField) (inc : Bool) (e : Env) :
    Nat → Nat → Option (List (List (String × JValue)) × Nat)
  | 0, k => some ([], k)
  | n + 1, k =>
    (genRecordEntries fields inc e k).bind fun p =>
      (genRecords fields inc e n p.2).map fun q => (buildObj p.1 :: q.1, q.2)

/-- Code: `generateMockData` (lines 197–215).  A `for` loop bounded by an integer
`recordCount` runs `max 0 recordCount` times, which is `Int.toNat`. -/
def generateMockData (s : Schema) (c : GenerationConfig) (e : Env) (k : Nat) :
    Option (List (List (String × JValue)) × Nat) :=
  genRecords s.fields (jsTruthyB c.includeNulls) e c.recordCount.toNat k

/-! ## Unfolding equations for the dispatch of `generateValue` -/

theorem generateValue_string (i nm : String) (c : FieldConstraints) (ns : List DataField)
    (e : Env) (k : Nat) :
    generateValue (.mk i nm "string" c ns) e k =
      some (.str (generateString c e k).1, (generateString c e k).2) := by
  simp [generateValue]

theorem generateValue_number (i nm : String) (c : FieldConstraints) (ns : List DataField)
    (e : Env) (k : Nat) :
    generateValue (.mk i nm "number" c ns) e k =
      (generateNumber c e k).map fun p => (.num p.1, p.2) := by
  simp [generateValue]

theorem generateValue_boolean (i nm : String) (c : FieldConstraints) (ns : List DataField)
    (e : Env) (k : Nat) :
    generateValue (.mk i nm "boolean" c ns) e k =
      some (.bool (decide ((1 : ℚ)/2 < e.g k)), k + 1) := by
  simp [generateValue]

theorem generateValue_uuid (i nm : String) (c : FieldConstraints) (ns : List DataField)
    (e : Env) (k : Nat) :
    generateValue (.mk i nm "uuid" c ns) e k =
      some (.str (generateUUID e k).1, (generateUUID e k).2) := by
  simp [generateValue]

theorem generateValue_date (i nm : String) (c : FieldConstraints) (ns : List DataField)
    (e : Env) (k : Nat) :
    generateValue (.mk i nm "date" c ns) e k =
      (generateDate c e k).map fun p => (.str p.1, p.2) := by
  simp [generateValue]

theorem generateValue_email (i nm : String) (c : FieldConstraints) (ns : List DataField)
    (e : Env) (k : Nat) :
    generateValue (.mk i nm "email" c ns) e k =
      some (.str (generateEmail e k).1, (generateEmail e k).2) := by
  simp [generateValue]

theorem generateValue_person_name (i nm : String) (c : FieldConstraints) (ns : List DataField)
    (e : Env) (k : Nat) :
    generateValue (.mk i nm "person_name" c ns) e k =
      some (.str (generatePersonName e k).1, (generatePersonName e k).2) := by
  simp [generateValue]

theorem generateValue_product_name (i nm : String) (c : FieldConstraints) (ns : List DataField)
    (e : Env) (k : Nat) :
    generateValue (.mk i nm "product_name" c ns) e k =
      some (.str (generateProductName e k).1, (generateProductName e k).2) := by
  simp [generateValue]

theorem generateValue_address (i nm : String) (c : FieldConstraints) (ns : List DataField)
    (e : Env) (k : Nat) :
    generateValue (.mk i nm "address" c ns) e k =
      some (.str (generateAddress e k).1, (generateAddress e k).2) := by
  simp [generateValue]

theorem generateValue_image_url (i nm : String) (c : FieldConstraints) (ns : List DataField)
    (e : Env) (k : Nat) :
    generateValue (.mk i nm "image_url" c ns) e k =
      some (.str (generateImageUrl e k).1, (generateImageUrl e k).2) := by
  simp [generateValue]

theorem generateValue_paragraph (i nm : String) (c : FieldConstraints) (ns : List DataField)
    (e : Env) (k : Nat) :
    generateValue (.mk i nm "paragraph" c ns) e k =
      some (.str (generateParagraph c e k).1, (generateParagraph c e k).2) := by
  simp [generateValue]

theorem generateValue_price (i nm : String) (c : FieldConstraints) (ns : List DataField)
    (e : Env) (k : Nat) :
    generateValue (.mk i nm "price" c ns) e k =
      some (.num (generatePrice c e k).1, (generatePrice c e k).2) := by
  simp [generateValue]

theorem generateValue_object (i nm : String) (c : FieldConstraints) (ns : List DataField)
    (e : Env) (k : Nat) :
    generateValue (.mk i nm "object" c ns) e k =
      (generateEntries ns e k).map fun p => (.obj (buildObj p.1), p.2) := by
  simp [generateValue]

theorem generateValue_array (i nm : String) (c : FieldConstraints) (ns : List DataField)
    (e : Env) (k : Nat) :
    generateValue (.mk i nm "array" c ns) e k =
      (generateArrayElems ns (arrayItemCount c (e.g k)).toNat e (k + 1)).map
        fun p => (.arr p.1, p.2) := by
  simp [generateValue]

/-- The `default:` arm: any tag outside the fourteen recognized ones yields
`null` and consumes no draw. -/
theorem generateValue_unknown (i nm ty : String) (c : FieldConstraints) (ns : List DataField)
    (e : Env) (k : Nat) (h : ty ∉ knownTypeTags) :
    generateValue (.mk i nm ty c ns) e k = some (.null, k) := by
  simp only [knownTypeTags, List.mem_cons, List.not_mem_nil, or_false, not_or] at h
  obtain ⟨h1, h2, h3, h4, h5, h6, h7, h8, h9, h10, h11, h12, h13, h14⟩ := h
  rw [generateValue]
  simp [h1, h2, h3, h4, h5, h6, h7, h8, h9, h10, h11, h12, h13, h14]

/-! ## General-purpose lemmas -/

theorem length_mk (l : List Char) : (String.mk l).length = l.length := rfl

/-- The all-zero draw stream (with clock 0), used for concrete evaluations. -/
def env0 : Env := ⟨fun _ => 0, 0⟩

theorem env0_ok : EnvOk env0 := fun _ => by norm_num [env0]

theorem env0_g (k : Nat) : env0.g k = 0 := rfl

theorem genRecords_length (fields : List DataField) (inc : Bool) (e : Env) :
    ∀ (n k : Nat) (rs : List (List (String × JValue))) (k' : Nat),
      genRecords fields inc e n k = some (rs, k') → rs.length = n := by
  intro n
  induction n with
  | zero =>
    intro k rs k' h
    rw [genRecords] at h
    simp only [Option.some.injEq, Prod.mk.injEq] at h
    simp [← h.1]
  | succ n ih =>
    intro k rs k' h
    rw [genRecords, Option.bind_eq_some] at h
    obtain ⟨p, hp, h⟩ := h
    rw [Option.map_eq_some'] at h
    obtain ⟨q, hq, h⟩ := h
    simp only [Prod.mk.injEq] at h
    rw [← h.1]
    simp [ih p.2 q.1 q.2 hq]

theorem genRecords_mem (fields : List DataField) (inc : Bool) (e : Env) :
    ∀ (n k : Nat) (rs : List (List (String × JValue))) (k' : Nat)
      (r : List (String × JValue)),
      genRecords fields inc e n k = some (rs, k') → r ∈ rs →
      ∃ k0 es k1, genRecordEntries fields inc e k0 = some (es, k1) ∧ r = buildObj es := by
  intro n
  induction n with
  | zero =>
    intro k rs k' r h hr
    rw [genRecords] at h
    simp only [Option.some.injEq, Prod.mk.injEq] at h
    rw [← h.1] at hr
    exact absurd hr (by simp)
  | succ n ih =>
    intro k rs k' r h hr
    rw [genRecords, Option.bind_eq_some] at h
    obtain ⟨p, hp, h⟩ := h
    rw [Option.map_eq_some'] at h
    obtain ⟨q, hq, h⟩ := h
    simp only [Prod.mk.injEq] at h
    rw [← h.1] at hr
    rcases List.mem_cons.mp hr with hhead | htail
    · exact ⟨k, p.1, p.2, by rw [hp], hhead⟩
    · exact ih p.2 q.1 q.2 r hq htail

theorem genRecordEntries_keys (inc : Bool) (e : Env) :
    ∀ (fs : List DataField) (k : Nat) (es : List (String × JValue)) (k' : Nat),
      genRecordEntries fs inc e k = some (es, k') →
      es.map Prod.fst = fs.map DataField.name := by
  intro fs
  induction fs with
  | nil =>
    intro k es k' h
    rw [genRecordEntries] at h
    simp only [Option.some.injEq, Prod.mk.injEq] at h
    simp [← h.1]
  | cons f fs ih =>
    intro k es k' h
    rw [genRecordEntries] at h
    cases inc with
    | false =>
      simp only [Bool.false_eq_true, if_false, Option.bind_eq_some] at h
      obtain ⟨p, hp, h⟩ := h
      rw [Option.map_eq_some'] at h
      obtain ⟨q, hq, h⟩ := h
      simp only [Prod.mk.injEq] at h
      rw [← h.1]
      simp [ih p.2 q.1 q.2 hq]
    | true =>
      simp only [if_true] at h
      by_cases hdraw : e.g k < 1/10
      · rw [if_pos hdraw, Option.map_eq_some'] at h
        obtain ⟨q, hq, h⟩ := h
        simp only [Prod.mk.injEq] at h
        rw [← h.1]
        simp [ih (k + 1) q.1 q.2 hq]
      · rw [if_neg hdraw, Option.bind_eq_some] at h
        obtain ⟨p, hp, h⟩ := h
        rw [Option.map_eq_some'] at h
        obtain ⟨q, hq, h⟩ := h
        simp only [Prod.mk.injEq] at h
        rw [← h.1]
        simp [ih p.2 q.1 q.2 hq]

theorem objSet_of_not_mem (l : List (String × JValue)) (key : String) (v : JValue)
    (h : key ∉ l.map Prod.fst) : objSet l key v = l ++ [(key, v)] := by
  induction l with
  | nil => rfl
  | cons p rest ih =>
    simp only [List.map_cons, List.mem_cons, not_or] at h
    rw [objSet, if_neg (fun hc => h.1 hc.symm), ih h.2]
    simp

theorem foldl_objSet_append (es : List (String × JValue)) :
    ∀ (acc : List (String × JValue)), (es.map Prod.fst).Nodup →
      (∀ p ∈ es, p.1 ∉ acc.map Prod.fst) →
      es.foldl (fun a p => objSet a p.1 p.2) acc = acc ++ es := by
  induction es with
  | nil => intro acc _ _; simp
  | cons p es ih =>
    intro acc hnd hdisj
    simp only [List.map_cons, List.nodup_cons] at hnd
    rw [List.foldl_cons, objSet_of_not_mem acc p.1 p.2 (hdisj p (by simp))]
    rw [ih (acc ++ [(p.1, p.2)]) hnd.2]
    · simp
    · intro q hq
      simp only [List.map_append, List.mem_append, not_or]
      constructor
      · exact hdisj q (by simp [hq])
      · simp only [List.map_cons, List.map_nil, List.mem_singleton]
        intro hc
        exact hnd.1 (hc ▸ List.mem_map_of_mem Prod.fst hq)

/-- On a duplicate-free entry list, assigning the entries in order into `{}`
reproduces the list itself. -/
theorem buildObj_eq_self (es : List (String × JValue)) (h : (es.map Prod.fst).Nodup) :
    buildObj es = es := by
  simpa using foldl_objSet_append es [] h (by simp)

/-! ## Claim C9: the `seed` field is never consumed -/

/-- Claim C9.  The `seed` member of `GenerationConfig` is never read: two
configurations that differ only in `seed` produce identical output on the
same schema, draw stream and clock. -/
theorem claim9_seed_unused (s : Schema) (c : GenerationConfig) (x : Option ℚ)
    (e : Env) (k : Nat) :
    generateMockData s { c with seed := x } e k = generateMockData s c e k := rfl

/-! ## Claim C1: cardinality and clamping -/

/-- Claim C1 (amended).  Whenever `generateMockData` completes without a raised
error its result has exactly `max 0 recordCount` records, and a non-positive
`recordCount` always yields the empty sequence (the loop body never runs, so
no field can raise). -/
theorem claim1_cardinality (s : Schema) (c : GenerationConfig) (e : Env) (k : Nat) :
    (∀ data k', generateMockData s c e k = some (data, k') →
      (data.length : Int) = Max.max 0 c.recordCount) ∧
    (c.recordCount ≤ 0 → generateMockData s c e k = some ([], k)) := by
  constructor
  · intro data k' h
    rw [generateMockData] at h
    rw [genRecords_length s.fields (jsTruthyB c.includeNulls) e c.recordCount.toNat k
      data k' h]
    rw [Int.toNat_eq_max, max_comm]
  · intro hle
    rw [generateMockData, Int.toNat_of_nonpos hle]
    rfl

/-- A schema whose single field makes `generateValue` raise: `toFixed(-1)`
throws a `RangeError`. -/
def c1PoisonSchema : Schema :=
  ⟨"s0", "poison", none, [.mk "f1" "amount" "number" { decimal := some (-1) } []]⟩

/-- Claim C1 counterexample.  With `recordCount = 1` and a field carrying
`decimal: -1`, `generateMockData` raises instead of returning a sequence of
length 1, so the claim's universal form fails. -/
theorem claim1_counterexample :
    generateMockData c1PoisonSchema ⟨1, none, none⟩ env0 0 = none := by
  simp [generateMockData, genRecords, genRecordEntries, c1PoisonSchema, jsTruthyB,
    generateValue_number, generateNumber, jsToFixed, jsOrI]

/-- A one-field schema used for concrete runs. -/
def demoSchema : Schema := ⟨"s1", "demo", none, [.mk "f1" "flag" "boolean" {} []]⟩

theorem demoSchema_run :
    generateMockData demoSchema ⟨2, none, none⟩ env0 0 =
      some ([[("flag", JValue.bool false)], [("flag", JValue.bool false)]], 2) := by
  simp only [generateMockData, demoSchema, jsTruthyB]
  norm_num [genRecords, genRecordEntries, generateValue_boolean, buildObj, objSet, env0_g,
    DataField.name]

/-- Claim C1 witness. -/
theorem claim1_witness :
    (([[("flag", JValue.bool false)], [("flag", JValue.bool false)]] :
        List (List (String × JValue))).length : Int) = Max.max 0 (2 : Int) :=
  (claim1_cardinality demoSchema ⟨2, none, none⟩ env0 0).1 _ 2 demoSchema_run

/-! ## Claim C2: key fidelity and key order -/

/-- Claim C2.  When the top-level field names are pairwise distinct, every
record that `generateMockData` returns has exactly the keys
`schema.fields.map name`, in schema order; null-injection keeps the key. -/
theorem claim2_key_fidelity (s : Schema) (c : GenerationConfig) (e : Env) (k : Nat)
    (hnd : (s.fields.map DataField.name).Nodup)
    (data : List (List (String × JValue))) (k' : Nat)
    (h : generateMockData s c e k = some (data, k'))
    (r : List (String × JValue)) (hr : r ∈ data) :
    r.map Prod.fst = s.fields.map DataField.name := by
  rw [generateMockData] at h
  obtain ⟨k0, es, k1, he, rfl⟩ :=
    genRecords_mem s.fields (jsTruthyB c.includeNulls) e c.recordCount.toNat k
      data k' r h hr
  have hkeys := genRecordEntries_keys (jsTruthyB c.includeNulls) e s.fields k0 es k1 he
  rw [buildObj_eq_self es (by rw [hkeys]; exact hnd)]
  exact hkeys

/-- A two-field schema (one recognized tag, one unrecognized) used for
concrete runs. -/
def demo2Schema : Schema :=
  ⟨"s2", "demo2", none,
   [.mk "f1" "flag" "boolean" {} [], .mk "f2" "tag" "mystery" {} []]⟩

theorem demo2Schema_run :
    generateMockData demo2Schema ⟨1, none, none⟩ env0 0 =
      some ([[("flag", JValue.bool false), ("tag", JValue.null)]], 1) := by
  have hu := generateValue_unknown "f2" "tag" "mystery" {} [] env0 1 (by decide)
  simp only [generateMockData, demo2Schema, jsTruthyB]
  norm_num [genRecords, genRecordEntries, generateValue_boolean, hu, buildObj, objSet, env0_g,
    DataField.name]
  decide

/-- Claim C2 witness. -/
theorem claim2_witness :
    ([("flag", JValue.bool false), ("tag", JValue.null)] :
        List (String × JValue)).map Prod.fst = demo2Schema.fields.map DataField.name :=
  claim2_key_fidelity demo2Schema ⟨1, none, none⟩ env0 0
    (by simp [demo2Schema, DataField.name]) _ 1 demo2Schema_run _ (by simp)

/-! ## Claim C3: totality of the synthesizer -/

/-- A field on which the real code raises: `(value).toFixed(-1)` throws a
`RangeError` (ECMA-262 `Number.prototype.toFixed`, step 5). -/
def c3PoisonField : DataField := .mk "f1" "amount" "number" { decimal := some (-1) } []

/-- Claim C3.  The synthesizer is *not* total: the `decimal: -1` constraint
makes it raise (first conjunct — refuting the claim's totality part).  The
unknown-tag half of the claim does hold: a tag outside the fourteen
recognized ones (here `"frobnicate"`) yields `null` for every field shape,
draw stream and position, and consumes no draw. -/
theorem claim3_totality :
    generateValue c3PoisonField env0 0 = none ∧
    knownTypeTags.contains "frobnicate" = false ∧
    (∀ (i nm : String) (c : FieldConstraints) (ns : List DataField) (e : Env) (k : Nat),
      generateValue (.mk i nm "frobnicate" c ns) e k = some (.null, k)) := by
  refine ⟨?_, by decide, ?_⟩
  · simp [c3PoisonField, generateValue_number, generateNumber, jsToFixed, jsOrI]
  · intro i nm c ns e k
    exact generateValue_unknown i nm "frobnicate" c ns e k (by decide)

/-! ## Claim C4: numeric range under rounding -/

theorem round_mono_q {x y : ℚ} (h : x ≤ y) : round x ≤ round y := by
  rw [round_eq, round_eq]
  exact Int.floor_mono (by linarith)

/-- Claim C4 (amended).  Let `m`, `M`, `d` be the effective minimum, maximum and
digit count after `||`-defaulting.  When `m ≤ M`, `d` lies in `toFixed`'s
legal range, and both bounds are integer multiples of `10^(-d)` (witnessed by
`zm`, `zM`), every synthesized number lies in `[m, M]`. -/
theorem claim4_number_range (i nm : String) (cns : FieldConstraints) (ns : List DataField)
    (e : Env) (k : Nat) (hg : EnvOk e)
    (hmM : jsOrQ cns.min 0 ≤ jsOrQ cns.max 100)
    (hd0 : 0 ≤ jsOrI cns.decimal 0) (hd1 : jsOrI cns.decimal 0 ≤ 100)
    (zm zM : Int)
    (hzm : jsOrQ cns.min 0 * (10 : ℚ) ^ (jsOrI cns.decimal 0).toNat = (zm : ℚ))
    (hzM : jsOrQ cns.max 100 * (10 : ℚ) ^ (jsOrI cns.decimal 0).toNat = (zM : ℚ))
    (v : ℚ) (k' : Nat)
    (h : generateValue (.mk i nm "number" cns ns) e k = some (.num v, k')) :
    jsOrQ cns.min 0 ≤ v ∧ v ≤ jsOrQ cns.max 100 := by
  set m := jsOrQ cns.min 0 with hm
  set M := jsOrQ cns.max 100 with hM
  set d := jsOrI cns.decimal 0 with hd
  rw [generateValue_number, generateNumber, Option.map_eq_some'] at h
  obtain ⟨p, hp, hpe⟩ := h
  rw [Option.map_eq_some'] at hp
  obtain ⟨q, hq, hqe⟩ := hp
  rw [jsToFixed, if_pos ⟨hd0, hd1⟩] at hq
  have hqv : q = v := by
    have h1 : p.1 = q := by rw [← hqe]
    have h2 : JValue.num p.1 = JValue.num v := congrArg Prod.fst hpe
    have h3 : p.1 = v := by injection h2
    rw [← h1, h3]
  obtain ⟨hr0, hr1⟩ := hg k
  set dn := d.toNat with hdn
  set x := e.g k * (M - m) + m with hx
  have hq' : q = ((round (x * 10 ^ dn) : ℤ) : ℚ) / 10 ^ dn := by
    injection hq with hq
    rw [← hq]
  have hx1 : m ≤ x := by nlinarith
  have hx2 : x ≤ M := by nlinarith
  have hpow : (0 : ℚ) < 10 ^ dn := by positivity
  have h1 : (zm : ℚ) ≤ x * 10 ^ dn := by
    rw [← hzm]
    exact mul_le_mul_of_nonneg_right hx1 (le_of_lt hpow)
  have h2 : x * 10 ^ dn ≤ (zM : ℚ) := by
    rw [← hzM]
    exact mul_le_mul_of_nonneg_right hx2 (le_of_lt hpow)
  have hrz1 : zm ≤ round (x * 10 ^ dn) := by
    calc zm = round ((zm : ℚ)) := (round_intCast zm).symm
    _ ≤ round (x * 10 ^ dn) := round_mono_q h1
  have hrz2 : round (x * 10 ^ dn) ≤ zM := by
    calc round (x * 10 ^ dn) ≤ round ((zM : ℚ)) := round_mono_q h2
    _ = zM := round_intCast zM
  have hm' : m = (zm : ℚ) / 10 ^ dn := by
    rw [eq_div_iff (ne_of_gt hpow)]
    exact hzm
  have hM' : M = (zM : ℚ) / 10 ^ dn := by
    rw [eq_div_iff (ne_of_gt hpow)]
    exact hzM
  rw [← hqv, hq', hm', hM']
  constructor
  · exact (div_le_div_iff_of_pos_right hpow).mpr (by exact_mod_cast hrz1)
  · exact (div_le_div_iff_of_pos_right hpow).mpr (by exact_mod_cast hrz2)

/-- A number field whose `min` is not an integer multiple of `10^0`. -/
def c4Field : DataField := .mk "f1" "score" "number" { min := some (2/5), max := some 10 } []

/-- Claim C4 counterexample.  `min = 2/5 = 0.4`, `max = 10`, `decimal`
defaulting to `0`: the first draw `0` gives the raw value `0.4`, which
`toFixed(0)` rounds to `0 < min`, so the claimed bound `min ≤ v` fails
even though `min ≤ max` and the draw is a legal `Math.random()` result. -/
theorem claim4_counterexample :
    (0 : ℚ) ≤ env0.g 0 ∧ env0.g 0 < 1 ∧
    jsOrQ c4Field.constraints.min 0 = 2/5 ∧
    jsOrQ c4Field.constraints.max 100 = 10 ∧
    jsOrI c4Field.constraints.decimal 0 = 0 ∧
    generateValue c4Field env0 0 = some (.num 0, 1) ∧
    (0 : ℚ) < 2/5 := by
  refine ⟨by norm_num [env0_g], by norm_num [env0_g],
    by norm_num [c4Field, DataField.constraints, jsOrQ],
    by norm_num [c4Field, DataField.constraints, jsOrQ],
    by norm_num [c4Field, DataField.constraints, jsOrI], ?_, by norm_num⟩
  show generateValue (.mk "f1" "score" "number" _ []) env0 0 = _
  rw [generateValue_number]
  norm_num [generateNumber, jsToFixed, jsOrQ, jsOrI, env0_g, round_eq]

/-- Claim C4 witness.  With `{min: 5, max: 10}` the first draw `0` yields the
value `5`, inside the claimed range. -/
theorem claim4_witness :
    jsOrQ (some (5 : ℚ)) 0 ≤ 5 ∧ (5 : ℚ) ≤ jsOrQ (some (10 : ℚ)) 100 := by
  have hrun : generateValue (.mk "f1" "score" "number"
      { min := some 5, max := some 10 } []) env0 0 = some (.num 5, 1) := by
    rw [generateValue_number]
    norm_num [generateNumber, jsToFixed, jsOrQ, jsOrI, env0_g, round_eq]
  exact claim4_number_range "f1" "score" { min := some 5, max := some 10 } [] env0 0
    env0_ok (by norm_num [jsOrQ]) (by norm_num [jsOrI]) (by norm_num [jsOrI])
    5 10 (by norm_num [jsOrQ, jsOrI]) (by norm_num [jsOrQ, jsOrI]) 5 1 hrun

/-! ## Claim C5: array length bounds and element shape -/

theorem generateArrayElems_zero (fs : List DataField) (e : Env) (k : Nat) :
    generateArrayElems fs 0 e k = some ([], k) := by
  rw [generateArrayElems]

theorem generateArrayElems_succ (fs : List DataField) (n : Nat) (e : Env) (k : Nat) :
    generateArrayElems fs (n + 1) e k =
      (genElem fs e k).bind fun p =>
        (generateArrayElems fs n e p.2).map fun q => (p.1 :: q.1, q.2) := by
  rw [generateArrayElems]

theorem generateArrayElems_one (fs : List DataField) (e : Env) (k : Nat) :
    generateArrayElems fs 1 e k = (genElem fs e k).map fun p => ([p.1], p.2) := by
  rw [show (1 : Nat) = 0 + 1 from rfl, generateArrayElems_succ]
  cases genElem fs e k with
  | none => rfl
  | some p => simp [generateArrayElems_zero]

theorem generateArrayElems_two (fs : List DataField) (e : Env) (k : Nat) :
    generateArrayElems fs 2 e k =
      (genElem fs e k).bind fun p =>
        (genElem fs e p.2).map fun p2 => ([p.1, p2.1], p2.2) := by
  rw [show (2 : Nat) = 1 + 1 from rfl, generateArrayElems_succ]
  simp only [generateArrayElems_one]
  cases genElem fs e k with
  | none => rfl
  | some p =>
    simp only [Option.some_bind]
    cases genElem fs e p.2 with
    | none => rfl
    | some p2 => simp

theorem arrayItemCount_bounds (c : FieldConstraints) (r : ℚ) (hr0 : 0 ≤ r) (hr1 : r < 1)
    (hmM : jsOrI c.minItems 1 ≤ jsOrI c.maxItems 5) :
    jsOrI c.minItems 1 ≤ arrayItemCount c r ∧ arrayItemCount c r ≤ jsOrI c.maxItems 5 := by
  set m := jsOrI c.minItems 1 with hm
  set M := jsOrI c.maxItems 5 with hM
  have hL : (0 : ℚ) < ((M - m + 1 : Int) : ℚ) := by
    have : (0 : Int) < M - m + 1 := by omega
    exact_mod_cast this
  have h0 : 0 ≤ ⌊r * ((M - m + 1 : Int) : ℚ)⌋ :=
    Int.floor_nonneg.mpr (mul_nonneg hr0 (le_of_lt hL))
  have h1 : ⌊r * ((M - m + 1 : Int) : ℚ)⌋ < M - m + 1 := by
    rw [Int.floor_lt]
    nlinarith
  rw [arrayItemCount, ← hm, ← hM]
  constructor <;> omega

theorem generateArrayElems_length (fs : List DataField) (e : Env) :
    ∀ (n k : Nat) (vs : List JValue) (k' : Nat),
      generateArrayElems fs n e k = some (vs, k') → vs.length = n := by
  intro n
  induction n with
  | zero =>
    intro k vs k' h
    rw [generateArrayElems] at h
    simp only [Option.some.injEq, Prod.mk.injEq] at h
    simp [← h.1]
  | succ n ih =>
    intro k vs k' h
    rw [generateArrayElems, Option.bind_eq_some] at h
    obtain ⟨p, hp, h⟩ := h
    rw [Option.map_eq_some'] at h
    obtain ⟨q, hq, h⟩ := h
    simp only [Prod.mk.injEq] at h
    rw [← h.1]
    simp [ih p.2 q.1 q.2 hq]

theorem generateEntries_keys (e : Env) :
    ∀ (fs : List DataField) (k : Nat) (es : List (String × JValue)) (k' : Nat),
      generateEntries fs e k = some (es, k') →
      es.map Prod.fst = fs.map DataField.name := by
  intro fs
  induction fs with
  | nil =>
    intro k es k' h
    rw [generateEntries] at h
    simp only [Option.some.injEq, Prod.mk.injEq] at h
    simp [← h.1]
  | cons f fs ih =>
    intro k es k' h
    rw [generateEntries, Option.bind_eq_some] at h
    obtain ⟨p, hp, h⟩ := h
    rw [Option.map_eq_some'] at h
    obtain ⟨q, hq, h⟩ := h
    simp only [Prod.mk.injEq] at h
    rw [← h.1]
    simp [ih p.2 q.1 q.2 hq]

/-- With a single nested field, every array element is a direct output of
`generateValue` on that field — a bare value, whatever the field's type. -/
theorem generateArrayElems_single (f : DataField) (e : Env) :
    ∀ (n k : Nat) (vs : List JValue) (k' : Nat),
      generateArrayElems [f] n e k = some (vs, k') →
      ∀ x ∈ vs, ∃ j kj, generateValue f e j = some (x, kj) := by
  intro n
  induction n with
  | zero =>
    intro k vs k' h
    rw [generateArrayElems] at h
    simp only [Option.some.injEq, Prod.mk.injEq] at h
    rw [← h.1]
    intro x hx
    exact absurd hx (by simp)
  | succ n ih =>
    intro k vs k' h
    rw [generateArrayElems, Option.bind_eq_some] at h
    obtain ⟨p, hp, h⟩ := h
    rw [genElem] at hp
    rw [Option.map_eq_some'] at h
    obtain ⟨q, hq, h⟩ := h
    simp only [Prod.mk.injEq] at h
    rw [← h.1]
    intro x hx
    rcases List.mem_cons.mp hx with hhead | htail
    · exact ⟨k, p.2, by rw [hp, hhead]⟩
    · exact ih p.2 q.1 q.2 hq x htail

theorem generateArrayElems_single_number (f : DataField) (hf : f.type = "number") (e : Env) :
    ∀ (n k : Nat) (vs : List JValue) (k' : Nat),
      generateArrayElems [f] n e k = some (vs, k') →
      ∀ x ∈ vs, ∃ q, x = JValue.num q := by
  obtain ⟨i, nm, ty, c, ns⟩ := f
  simp only [DataField.type] at hf
  subst hf
  intro n
  induction n with
  | zero =>
    intro k vs k' h
    rw [generateArrayElems] at h
    simp only [Option.some.injEq, Prod.mk.injEq] at h
    rw [← h.1]
    intro x hx
    exact absurd hx (by simp)
  | succ n ih =>
    intro k vs k' h
    rw [generateArrayElems, Option.bind_eq_some] at h
    obtain ⟨p, hp, h⟩ := h
    rw [genElem, generateValue_number, Option.map_eq_some'] at hp
    obtain ⟨pq, hpq, hpe⟩ := hp
    rw [Option.map_eq_some'] at h
    obtain ⟨q, hq, h⟩ := h
    simp only [Prod.mk.injEq] at h
    rw [← h.1]
    intro x hx
    rcases List.mem_cons.mp hx with hhead | htail
    · exact ⟨pq.1, by rw [hhead, ← hpe]⟩
    · exact ih p.2 q.1 q.2 hq x htail

theorem generateArrayElems_multi_obj (f1 f2 : DataField) (rest : List DataField) (e : Env)
    (hnd : ((f1 :: f2 :: rest).map DataField.name).Nodup) :
    ∀ (n k : Nat) (vs : List JValue) (k' : Nat),
      generateArrayElems (f1 :: f2 :: rest) n e k = some (vs, k') →
      ∀ x ∈ vs, ∃ es, x = JValue.obj es ∧
        es.map Prod.fst = (f1 :: f2 :: rest).map DataField.name := by
  intro n
  induction n with
  | zero =>
    intro k vs k' h
    rw [generateArrayElems] at h
    simp only [Option.some.injEq, Prod.mk.injEq] at h
    rw [← h.1]
    intro x hx
    exact absurd hx (by simp)
  | succ n ih =>
    intro k vs k' h
    rw [generateArrayElems, Option.bind_eq_some] at h
    obtain ⟨p, hp, h⟩ := h
    rw [genElem, Option.map_eq_some'] at hp
    obtain ⟨pq, hpq, hpe⟩ := hp
    rw [Option.map_eq_some'] at h
    obtain ⟨q, hq, h⟩ := h
    simp only [Prod.mk.injEq] at h
    rw [← h.1]
    intro x hx
    rcases List.mem_cons.mp hx with hhead | htail
    · have hkeys := generateEntries_keys e (f1 :: f2 :: rest) k pq.1 pq.2 hpq
      refine ⟨pq.1, ?_, hkeys⟩
      rw [hhead, ← hpe, buildObj_eq_self pq.1 (by rw [hkeys]; exact hnd)]
    · exact ih p.2 q.1 q.2 hq x htail

/-- Claim C5.  A synthesized array value has between `minItems` and `maxItems`
elements (effective values, defaults `1` and `5`); a single-field nested
schema — of any type — gives each element as the bare output of that field's
synthesizer (in particular, bare numbers for a `number` field), and a
multi-field nested schema gives object elements keyed by the nested field
names. -/
theorem claim5_array (i nm : String) (cns : FieldConstraints) (fs : List DataField)
    (e : Env) (k : Nat) (hg : EnvOk e)
    (hmM : jsOrI cns.minItems 1 ≤ jsOrI cns.maxItems 5)
    (hm0 : 0 ≤ jsOrI cns.minItems 1)
    (v : JValue) (k' : Nat)
    (h : generateValue (.mk i nm "array" cns fs) e k = some (v, k')) :
    ∃ elems : List JValue,
      v = JValue.arr elems ∧
      jsOrI cns.minItems 1 ≤ (elems.length : Int) ∧
      (elems.length : Int) ≤ jsOrI cns.maxItems 5 ∧
      (∀ f0, fs = [f0] →
        ∀ x ∈ elems, ∃ j kj, generateValue f0 e j = some (x, kj)) ∧
      (∀ f0, fs = [f0] → f0.type = "number" → ∀ x ∈ elems, ∃ q, x = JValue.num q) ∧
      (2 ≤ fs.length → (fs.map DataField.name).Nodup →
        ∀ x ∈ elems, ∃ es, x = JValue.obj es ∧
          es.map Prod.fst = fs.map DataField.name) := by
  rw [generateValue_array, Option.map_eq_some'] at h
  obtain ⟨⟨vs, kv⟩, hp, hpe⟩ := h
  obtain ⟨hr0, hr1⟩ := hg k
  obtain ⟨hcnt1, hcnt2⟩ := arrayItemCount_bounds cns (e.g k) hr0 hr1 hmM
  have hlen := generateArrayElems_length fs e (arrayItemCount cns (e.g k)).toNat (k + 1)
    vs kv hp
  have hv : v = JValue.arr vs := by
    have := congrArg Prod.fst hpe
    simpa using this.symm
  refine ⟨vs, hv, ?_, ?_, ?_, ?_, ?_⟩
  · rw [hlen]
    rw [Int.toNat_of_nonneg (le_trans hm0 hcnt1)]
    exact hcnt1
  · rw [hlen]
    rw [Int.toNat_of_nonneg (le_trans hm0 hcnt1)]
    exact hcnt2
  · intro f0 hfs
    subst hfs
    exact generateArrayElems_single f0 e _ (k + 1) vs kv hp
  · intro f0 hfs hf0
    subst hfs
    exact generateArrayElems_single_number f0 hf0 e _ (k + 1) vs kv hp
  · intro hfs hnd
    match fs, hnd, hp with
    | f1 :: f2 :: rest, hnd, hp =>
      exact generateArrayElems_multi_obj f1 f2 rest e hnd _ (k + 1) vs kv hp

/-- The array field of the spec's array-bounds test:
`{minItems: 2, maxItems: 2}` over a single `number` field. -/
def c5Field : DataField :=
  .mk "f1" "nums" "array" { minItems := some 2, maxItems := some 2 }
    [.mk "n1" "x" "number" {} []]

theorem c5Field_run :
    generateValue c5Field env0 0 = some (.arr [JValue.num 0, JValue.num 0], 3) := by
  show generateValue (.mk "f1" "nums" "array" _ _) env0 0 = _
  rw [generateValue_array]
  have hcnt : (arrayItemCount { minItems := some 2, maxItems := some 2 } (env0.g 0)).toNat
      = 2 := by
    norm_num [arrayItemCount, jsOrI, env0_g]
    decide
  rw [hcnt]
  have hnum : ∀ j : Nat, generateValue (.mk "n1" "x" "number" {} []) env0 j =
      some (.num 0, j + 1) := by
    intro j
    rw [generateValue_number]
    norm_num [generateNumber, jsToFixed, jsOrQ, jsOrI, env0_g, round_eq]
  rw [generateArrayElems_two, genElem, hnum 1]
  simp only [Option.some_bind]
  rw [genElem, hnum 2]
  rfl

/-- Claim C5 witness.  The concrete run yields an array of length exactly 2
whose elements are bare numbers, each a direct output of the nested field's
synthesizer. -/
theorem claim5_witness :
    jsOrI (some 2) 1 ≤ ((2 : Nat) : Int) ∧ ((2 : Nat) : Int) ≤ jsOrI (some 2) 5 ∧
    (∃ j kj, generateValue (.mk "n1" "x" "number" {} []) env0 j =
      some (JValue.num 0, kj)) ∧
    (∃ q, JValue.num (0 : ℚ) = JValue.num q) := by
  obtain ⟨elems, he, h1, h2, hbare, h3, h4⟩ :=
    claim5_array "f1" "nums" { minItems := some 2, maxItems := some 2 }
      [.mk "n1" "x" "number" {} []] env0 0 env0_ok
      (by norm_num [jsOrI]) (by norm_num [jsOrI])
      (.arr [JValue.num 0, JValue.num 0]) 3 c5Field_run
  have helems : elems = [JValue.num 0, JValue.num 0] := by
    injection he with he
    exact he.symm
  subst helems
  refine ⟨h1, h2, ?_, ?_⟩
  · exact hbare (.mk "n1" "x" "number" {} []) rfl (JValue.num 0) (by simp)
  · exact h3 (.mk "n1" "x" "number" {} []) rfl rfl (JValue.num 0) (by simp)

/-! ## Claim C6: string length clamping -/

theorem toList_length (s : String) : s.toList.length = s.length := rfl

theorem pickD_mem (l : List String) (r : ℚ) (hr0 : 0 ≤ r) (hr1 : r < 1)
    (hl : l ≠ []) : pickD l r ∈ l := by
  have hl0 : 0 < l.length := List.length_pos.mpr hl
  have hlq : (0 : ℚ) < (l.length : ℚ) := by exact_mod_cast hl0
  have hfl0 : 0 ≤ ⌊r * (l.length : ℚ)⌋ :=
    Int.floor_nonneg.mpr (mul_nonneg hr0 (le_of_lt hlq))
  have hflt : ⌊r * (l.length : ℚ)⌋ < (l.length : Int) := by
    rw [Int.floor_lt]
    push_cast
    nlinarith
  have hidx : (⌊r * (l.length : ℚ)⌋).toNat < l.length := by omega
  rw [pickD, l.getD_eq_getElem "undefined" hidx]
  exact l.getElem_mem hidx

theorem stringPhrase_length (e : Env) (k : Nat) (hg : EnvOk e) :
    9 ≤ (stringPhrase e k).1.length ∧ (stringPhrase e k).1.length ≤ 21 := by
  have ha := pickD_mem adjectives (e.g k) (hg k).1 (hg k).2 (by simp [adjectives])
  have hb := pickD_mem nouns (e.g (k + 1)) (hg (k + 1)).1 (hg (k + 1)).2 (by simp [nouns])
  have hal : 4 ≤ (pickD adjectives (e.g k)).length ∧
      (pickD adjectives (e.g k)).length ≤ 9 :=
    (by decide : ∀ s ∈ adjectives, 4 ≤ s.length ∧ s.length ≤ 9) _ ha
  have hbl : 4 ≤ (pickD nouns (e.g (k + 1))).length ∧
      (pickD nouns (e.g (k + 1))).length ≤ 11 :=
    (by decide : ∀ s ∈ nouns, 4 ≤ s.length ∧ s.length ≤ 11) _ hb
  have hsp : (" " : String).length = 1 := rfl
  simp only [stringPhrase, String.length_append]
  constructor <;> omega

theorem padMin_length_some (n : Int) (s : String) :
    ((padMin (some n) s).length : Int) =
      if n ≠ 0 ∧ (s.length : Int) < n then n else s.length := by
  rw [padMin]
  by_cases hc : n ≠ 0 ∧ (s.length : Int) < n
  · rw [if_pos hc, if_pos hc]
    simp only [String.length_append, length_mk, List.length_replicate]
    omega
  · rw [if_neg hc, if_neg hc]

theorem truncMax_length_some (m : Int) (s : String) :
    (truncMax (some m) s).length =
      if m ≠ 0 ∧ m < (s.length : Int) then m.toNat else s.length := by
  rw [truncMax]
  by_cases hc : m ≠ 0 ∧ m < (s.length : Int)
  · rw [if_pos hc, if_pos hc]
    simp only [length_mk, List.length_take, toList_length]
    omega
  · rw [if_neg hc, if_neg hc]

/-- Claim C6.  String synthesis is phrase-then-pad-then-truncate: with only
`minLength = n` present the result length is at least `n` (and exactly `n`
whenever `n` exceeds every possible phrase length, i.e. `n ≥ 22`); with
`maxLength = m ≥ 1` present the result length is at most `m`. -/
theorem claim6_string_clamping (i nm : String) (cns : FieldConstraints)
    (ns : List DataField) (e : Env) (k : Nat) (hg : EnvOk e) (st : String) (k' : Nat)
    (h : generateValue (.mk i nm "string" cns ns) e k = some (.str st, k')) :
    (∀ n, cns.minLength = some n → cns.maxLength = none → n ≤ (st.length : Int)) ∧
    (∀ n, cns.minLength = some n → cns.maxLength = none → 22 ≤ n →
      (st.length : Int) = n) ∧
    (∀ m, cns.maxLength = some m → 1 ≤ m → (st.length : Int) ≤ m) := by
  rw [generateValue_string] at h
  simp only [Option.some.injEq, Prod.mk.injEq, JValue.str.injEq] at h
  have hst : st = (generateString cns e k).1 := h.1.symm
  obtain ⟨hp9, hp21⟩ := stringPhrase_length e k hg
  rw [hst, generateString]
  refine ⟨?_, ?_, ?_⟩
  · intro n hmin hmax
    rw [hmin, hmax, truncMax, padMin_length_some]
    split
    · omega
    · rename_i hc
      push_neg at hc
      by_cases hn : n = 0
      · omega
      · have := hc hn
        omega
  · intro n hmin hmax h22
    rw [hmin, hmax, truncMax, padMin_length_some]
    rw [if_pos ⟨by omega, by omega⟩]
  · intro m hmax hm1
    rw [hmax, truncMax_length_some]
    split
    · omega
    · rename_i hc
      push_neg at hc
      have := hc (by omega)
      omega

/-- The string field of the spec's constraint-clamping test. -/
def c6Field : DataField := .mk "f1" "title" "string" { minLength := some 50 } []

theorem c6Field_run :
    generateValue c6Field env0 0 =
      some (.str ("Beautiful Product" ++ String.mk (List.replicate 33 'x')), 2) := by
  show generateValue (.mk "f1" "title" "string" _ []) env0 0 = _
  rw [generateValue_string]
  norm_num [generateString, stringPhrase, pickD, env0_g, padMin, truncMax]
  decide

/-- Claim C6 witness.  With `{minLength: 50}` the concrete run pads the phrase
to length exactly 50. -/
theorem claim6_witness :
    (50 : Int) ≤ (("Beautiful Product" ++ String.mk (List.replicate 33 'x')).length : Int) :=
  (claim6_string_clamping "f1" "title" { minLength := some 50 } [] env0 0 env0_ok
    _ 2 c6Field_run).1 50 rfl rfl

/-! ## Claim C7: RFC-4122 v4 shape of generated UUIDs -/

theorem toList_mk (l : List Char) : (String.mk l).toList = l := rfl

/-- A lowercase hexadecimal digit. -/
def isHexChar (c : Char) : Bool := ('0' ≤ c && c ≤ '9') || ('a' ≤ c && c ≤ 'f')

/-- Position-by-position check of the character list against the regex
`^[0-9a-f]{8}-[0-9a-f]{4}-4[0-9a-f]{3}-[89ab][0-9a-f]{3}-[0-9a-f]{12}$`:
hyphens at 8, 13, 18, 23; the literal `4` at 14; a variant digit at 19;
hex digits everywhere else. -/
def uuidShapeAux : Nat → List Char → Bool
  | _, [] => true
  | i, c :: cs =>
    (if i == 8 || i == 13 || i == 18 || i == 23 then c == '-'
     else if i == 14 then c == '4'
     else if i == 19 then (['8', '9', 'a', 'b'] : List Char).contains c
     else isHexChar c) && uuidShapeAux (i + 1) cs

def uuidShape (l : List Char) : Bool := (l.length == 36) && uuidShapeAux 0 l

theorem hexRand_lt_16 (e : Env) (hg : EnvOk e) (k : Nat) : hexRand e k < 16 := by
  obtain ⟨h0, h1⟩ := hg k
  rw [hexRand, jsTrunc]
  have h16 : (0 : ℚ) ≤ e.g k * 16 := mul_nonneg h0 (by norm_num)
  rw [if_neg (not_lt.mpr h16)]
  have hlt : ⌊e.g k * 16⌋ < 16 := by
    rw [Int.floor_lt]
    push_cast
    nlinarith
  omega

theorem isHexChar_digitChar {n : Nat} (h : n < 16) :
    isHexChar (Nat.digitChar n) = true := by
  interval_cases n <;> decide

theorem variant_digitChar {n : Nat} (h : n < 16) :
    (['8', '9', 'a', 'b'] : List Char).contains (Nat.digitChar ((n.land 3).lor 8)) = true := by
  interval_cases n <;> decide

theorem variant_digitChar_or {n : Nat} (h : n < 16) :
    Nat.digitChar ((n.land 3).lor 8) = '8' ∨ Nat.digitChar ((n.land 3).lor 8) = '9' ∨
    Nat.digitChar ((n.land 3).lor 8) = 'a' ∨ Nat.digitChar ((n.land 3).lor 8) = 'b' := by
  interval_cases n <;> decide

/-- Claim C7.  Every value synthesized for a `uuid`-typed field matches the
RFC-4122 v4 shape, for every draw stream within `Math.random()`'s range. -/
theorem claim7_uuid_shape (i nm : String) (cns : FieldConstraints) (ns : List DataField)
    (e : Env) (k : Nat) (hg : EnvOk e) (st : String) (k' : Nat)
    (h : generateValue (.mk i nm "uuid" cns ns) e k = some (.str st, k')) :
    uuidShape st.toList = true := by
  rw [generateValue_uuid] at h
  simp only [Option.some.injEq, Prod.mk.injEq, JValue.str.injEq] at h
  have hst : st = (generateUUID e k).1 := h.1.symm
  have hx : ∀ j, isHexChar (Nat.digitChar (hexRand e j)) = true :=
    fun j => isHexChar_digitChar (hexRand_lt_16 e hg j)
  have hy : ∀ j, (['8', '9', 'a', 'b'] : List Char).contains
      (Nat.digitChar (((hexRand e j).land 3).lor 8)) = true :=
    fun j => variant_digitChar (hexRand_lt_16 e hg j)
  have hc1 : ¬ ('-' : Char) = 'x' := by decide
  have hc2 : ¬ ('-' : Char) = 'y' := by decide
  have hc3 : ¬ ('4' : Char) = 'x' := by decide
  have hc4 : ¬ ('4' : Char) = 'y' := by decide
  have hc5 : ¬ ('y' : Char) = 'x' := by decide
  rw [hst, generateUUID]
  simp only [uuidTemplate, String.toList]
  simp only [uuidChars, hc1, hc2, hc3, hc4, hc5, if_true, if_false, toList_mk]
  simp [uuidShape, uuidShapeAux, hx, hy]
  exact variant_digitChar_or (hexRand_lt_16 e hg _)

/-- The uuid field used for the concrete run. -/
def c7Field : DataField := .mk "f1" "ident" "uuid" {} []

theorem c7Field_run :
    generateValue c7Field env0 0 =
      some (.str "00000000-0000-4000-8000-000000000000", 31) := by
  show generateValue (.mk "f1" "ident" "uuid" _ []) env0 0 = _
  rw [generateValue_uuid]
  have hz : ∀ j, hexRand env0 j = 0 := fun j => by
    simp [hexRand, jsTrunc, env0_g]
  have hc1 : ¬ ('-' : Char) = 'x' := by decide
  have hc2 : ¬ ('-' : Char) = 'y' := by decide
  have hc3 : ¬ ('4' : Char) = 'x' := by decide
  have hc4 : ¬ ('4' : Char) = 'y' := by decide
  have hc5 : ¬ ('y' : Char) = 'x' := by decide
  simp only [generateUUID, uuidTemplate, uuidChars, hz, hc1, hc2, hc3, hc4, hc5,
    if_true, if_false]
  rfl

/-- Claim C7 witness.  The concrete all-zero run produces
`00000000-0000-4000-8000-000000000000`, which passes the shape check. -/
theorem claim7_witness :
    uuidShape ("00000000-0000-4000-8000-000000000000" : String).toList = true :=
  claim7_uuid_shape "f1" "ident" {} [] env0 0 env0_ok _ 31 c7Field_run

/-! ## Claim C8: null injection -/

/-- A recognized scalar tag never synthesizes `null` (the nullable outcomes
are only the unknown-tag default and the injection in the record loop). -/
theorem generateValue_scalar_ne_null (f : DataField) (e : Env) (k : Nat)
    (v : JValue) (kv : Nat) (hf : f.type ∈ scalarTypeTags)
    (h : generateValue f e k = some (v, kv)) : v ≠ JValue.null := by
  obtain ⟨i, nm, ty, c, ns⟩ := f
  simp only [DataField.type] at hf
  simp only [scalarTypeTags, List.mem_cons, List.not_mem_nil, or_false] at hf
  rcases hf with rfl | rfl | rfl | rfl | rfl | rfl | rfl | rfl | rfl | rfl | rfl | rfl
  all_goals first
    | (rw [generateValue_string] at h
       simp only [Option.some.injEq, Prod.mk.injEq] at h
       rw [← h.1]; simp)
    | (rw [generateValue_boolean] at h
       simp only [Option.some.injEq, Prod.mk.injEq] at h
       rw [← h.1]; simp)
    | (rw [generateValue_uuid] at h
       simp only [Option.some.injEq, Prod.mk.injEq] at h
       rw [← h.1]; simp)
    | (rw [generateValue_email] at h
       simp only [Option.some.injEq, Prod.mk.injEq] at h
       rw [← h.1]; simp)
    | (rw [generateValue_person_name] at h
       simp only [Option.some.injEq, Prod.mk.injEq] at h
       rw [← h.1]; simp)
    | (rw [generateValue_product_name] at h
       simp only [Option.some.injEq, Prod.mk.injEq] at h
       rw [← h.1]; simp)
    | (rw [generateValue_address] at h
       simp only [Option.some.injEq, Prod.mk.injEq] at h
       rw [← h.1]; simp)
    | (rw [generateValue_image_url] at h
       simp only [Option.some.injEq, Prod.mk.injEq] at h
       rw [← h.1]; simp)
    | (rw [generateValue_paragraph] at h
       simp only [Option.some.injEq, Prod.mk.injEq] at h
       rw [← h.1]; simp)
    | (rw [generateValue_price] at h
       simp only [Option.some.injEq, Prod.mk.injEq] at h
       rw [← h.1]; simp)
    | (rw [generateValue_number, Option.map_eq_some'] at h
       obtain ⟨p, hp, hpe⟩ := h
       have hfst := congrArg Prod.fst hpe
       simp only at hfst
       rw [← hfst]; simp)
    | (rw [generateValue_date, Option.map_eq_some'] at h
       obtain ⟨p, hp, hpe⟩ := h
       have hfst := congrArg Prod.fst hpe
       simp only at hfst
       rw [← hfst]; simp)

theorem genRecordEntries_false_no_null (e : Env) :
    ∀ (fs : List DataField) (k : Nat) (es : List (String × JValue)) (k' : Nat),
      genRecordEntries fs false e k = some (es, k') →
      (∀ f ∈ fs, f.type ∈ scalarTypeTags) →
      ∀ p ∈ es, p.2 ≠ JValue.null := by
  intro fs
  induction fs with
  | nil =>
    intro k es k' h _ p hp
    rw [genRecordEntries] at h
    simp only [Option.some.injEq, Prod.mk.injEq] at h
    rw [← h.1] at hp
    exact absurd hp (by simp)
  | cons f fs ih =>
    intro k es k' h hsc p hp
    rw [genRecordEntries] at h
    simp only [Bool.false_eq_true, if_false, Option.bind_eq_some] at h
    obtain ⟨pv, hpv, h⟩ := h
    rw [Option.map_eq_some'] at h
    obtain ⟨q, hq, h⟩ := h
    simp only [Prod.mk.injEq] at h
    rw [← h.1] at hp
    rcases List.mem_cons.mp hp with hhead | htail
    · rw [hhead]
      exact generateValue_scalar_ne_null f e k pv.1 pv.2
        (hsc f (by simp)) (by rw [hpv])
    · exact ih pv.2 q.1 q.2 hq (fun g hg => hsc g (by simp [hg])) p htail

theorem objSet_mem (l : List (String × JValue)) (key : String) (v : JValue)
    (p : String × JValue) (h : p ∈ objSet l key v) : p ∈ l ∨ p = (key, v) := by
  induction l with
  | nil =>
    rw [objSet] at h
    rcases List.mem_singleton.mp h with rfl
    exact Or.inr rfl
  | cons q rest ih =>
    rw [objSet] at h
    by_cases hc : q.1 = key
    · rw [if_pos hc] at h
      rcases List.mem_cons.mp h with hhead | htail
      · exact Or.inr (by rw [hhead, hc])
      · exact Or.inl (List.mem_cons_of_mem q htail)
    · rw [if_neg hc] at h
      rcases List.mem_cons.mp h with hhead | htail
      · exact Or.inl (by rw [hhead]; simp)
      · rcases ih htail with hl | hr
        · exact Or.inl (List.mem_cons_of_mem q hl)
        · exact Or.inr hr

theorem foldl_objSet_mem (p : String × JValue) :
    ∀ (es acc : List (String × JValue)),
      p ∈ es.foldl (fun a q => objSet a q.1 q.2) acc → p ∈ acc ∨ p ∈ es := by
  intro es
  induction es with
  | nil => intro acc hacc; exact Or.inl hacc
  | cons q es ih =>
    intro acc hacc
    rw [List.foldl_cons] at hacc
    rcases ih (objSet acc q.1 q.2) hacc with hin | hin
    · rcases objSet_mem acc q.1 q.2 p hin with hl | hr
      · exact Or.inl hl
      · exact Or.inr (by rw [hr]; simp)
    · exact Or.inr (List.mem_cons_of_mem q hin)

theorem buildObj_mem (es : List (String × JValue)) (p : String × JValue)
    (h : p ∈ buildObj es) : p ∈ es := by
  rcases foldl_objSet_mem p es [] h with habs | hok
  · exact absurd habs (by simp)
  · exact hok

/-- Claim C8.  Null injection: with `includeNulls` true a field is nulled
exactly when its dedicated draw is below `0.1` (first two conjuncts); with
`includeNulls` false the draw is not even consumed and the value is the
synthesized one (third conjunct); and a whole run over recognized scalar
fields with `includeNulls` false contains no `null` anywhere (fourth
conjunct). -/
theorem claim8_null_injection :
    (∀ (f : DataField) (fs : List DataField) (e : Env) (k : Nat),
      e.g k < 1/10 →
      ∀ es k', genRecordEntries (f :: fs) true e k = some (es, k') →
        es.head? = some (f.name, JValue.null)) ∧
    (∀ (f : DataField) (fs : List DataField) (e : Env) (k : Nat),
      ¬ e.g k < 1/10 →
      ∀ es k', genRecordEntries (f :: fs) true e k = some (es, k') →
        ∃ v kv, generateValue f e (k + 1) = some (v, kv) ∧
          es.head? = some (f.name, v)) ∧
    (∀ (f : DataField) (fs : List DataField) (e : Env) (k : Nat),
      ∀ es k', genRecordEntries (f :: fs) false e k = some (es, k') →
        ∃ v kv, generateValue f e k = some (v, kv) ∧ es.head? = some (f.name, v)) ∧
    (∀ (s : Schema) (c : GenerationConfig) (e : Env) (k : Nat),
      jsTruthyB c.includeNulls = false →
      (∀ f ∈ s.fields, f.type ∈ scalarTypeTags) →
      ∀ data k', generateMockData s c e k = some (data, k') →
      ∀ r ∈ data, ∀ p ∈ r, p.2 ≠ JValue.null) := by
  refine ⟨?_, ?_, ?_, ?_⟩
  · intro f fs e k hdraw es k' h
    rw [genRecordEntries] at h
    simp only [if_true, if_pos hdraw, Option.map_eq_some'] at h
    obtain ⟨q, hq, h⟩ := h
    simp only [Prod.mk.injEq] at h
    rw [← h.1]
    rfl
  · intro f fs e k hdraw es k' h
    rw [genRecordEntries] at h
    simp only [if_true, if_neg hdraw, Option.bind_eq_some] at h
    obtain ⟨p, hp, h⟩ := h
    rw [Option.map_eq_some'] at h
    obtain ⟨q, hq, h⟩ := h
    simp only [Prod.mk.injEq] at h
    exact ⟨p.1, p.2, by rw [hp], by rw [← h.1]; rfl⟩
  · intro f fs e k es k' h
    rw [genRecordEntries] at h
    simp only [Bool.false_eq_true, if_false, Option.bind_eq_some] at h
    obtain ⟨p, hp, h⟩ := h
    rw [Option.map_eq_some'] at h
    obtain ⟨q, hq, h⟩ := h
    simp only [Prod.mk.injEq] at h
    exact ⟨p.1, p.2, by rw [hp], by rw [← h.1]; rfl⟩
  · intro s c e k hinc hsc data k' h r hr p hp
    rw [generateMockData, hinc] at h
    obtain ⟨k0, es, k1, he, rfl⟩ :=
      genRecords_mem s.fields false e c.recordCount.toNat k data k' r h hr
    exact genRecordEntries_false_no_null e s.fields k0 es k1 he hsc p (buildObj_mem es p hp)

/-- Claim C8 witness.  Concrete instances of all the branches: the all-zero
stream (draw `0 < 0.1`) nulls the field when `includeNulls` is true; with
`includeNulls` false the boolean field keeps its synthesized value; and a
synthesized uuid string is not `null`. -/
theorem claim8_witness :
    (([("flag", JValue.null)] : List (String × JValue)).head? =
      some ("flag", JValue.null)) ∧
    (∃ v kv, generateValue (.mk "f1" "flag" "boolean" {} []) env0 0 = some (v, kv) ∧
      ([("flag", JValue.bool false)] : List (String × JValue)).head? =
        some ("flag", v)) ∧
    JValue.bool false ≠ JValue.null := by
  have hbool : generateValue (.mk "f1" "flag" "boolean" {} []) env0 0 =
      some (.bool false, 1) := by
    rw [generateValue_boolean]
    norm_num [env0_g]
  refine ⟨?_, ?_, ?_⟩
  · refine claim8_null_injection.1 (.mk "f1" "flag" "boolean" {} []) [] env0 0
      (by norm_num [env0_g]) _ 1 ?_
    rw [genRecordEntries]
    norm_num [env0_g, genRecordEntries, DataField.name]
  · refine claim8_null_injection.2.2.1 (.mk "f1" "flag" "boolean" {} []) [] env0 0 _ 1 ?_
    rw [genRecordEntries]
    simp only [Bool.false_eq_true, if_false, hbool, Option.some_bind, genRecordEntries]
    rfl
  · exact claim8_null_injection.2.2.2 demoSchema ⟨2, none, none⟩ env0 0 rfl
      (by decide) _ 2 demoSchema_run [("flag", JValue.bool false)] (by simp)
      ("flag", JValue.bool false) (by simp)

/-! ## Claim C10: a zero-valued constraint falls back to the default -/

/-- Claim C10.  `||`-defaulting makes a constraint whose value is `0` behave
exactly like an absent one, for every constraint the generator reads:
`min`/`max`/`decimal` on numbers, `minItems`/`maxItems` on arrays (and with
`minItems: 0` the effective range is the default-driven `[1, 5]`),
`minLength`/`maxLength` on strings, and `minWords` on paragraphs (default
sentence count 3). -/
theorem claim10_zero_constraints :
    (∀ (c : FieldConstraints) (e : Env) (k : Nat),
      generateNumber { c with min := some 0 } e k =
        generateNumber { c with min := none } e k) ∧
    (∀ (c : FieldConstraints) (e : Env) (k : Nat),
      generateNumber { c with max := some 0 } e k =
        generateNumber { c with max := none } e k) ∧
    (∀ (c : FieldConstraints) (e : Env) (k : Nat),
      generateNumber { c with decimal := some 0 } e k =
        generateNumber { c with decimal := none } e k) ∧
    (∀ (c : FieldConstraints) (r : ℚ),
      arrayItemCount { c with minItems := some 0 } r =
        arrayItemCount { c with minItems := none } r) ∧
    (∀ (c : FieldConstraints) (r : ℚ),
      arrayItemCount { c with maxItems := some 0 } r =
        arrayItemCount { c with maxItems := none } r) ∧
    (∀ (c : FieldConstraints) (r : ℚ), c.minItems = some 0 → c.maxItems = none →
      0 ≤ r → r < 1 → 1 ≤ arrayItemCount c r ∧ arrayItemCount c r ≤ 5) ∧
    (∀ (c : FieldConstraints) (e : Env) (k : Nat),
      generateString { c with minLength := some 0 } e k =
        generateString { c with minLength := none } e k) ∧
    (∀ (c : FieldConstraints) (e : Env) (k : Nat),
      generateString { c with maxLength := some 0 } e k =
        generateString { c with maxLength := none } e k) ∧
    (∀ (c : FieldConstraints) (e : Env) (k : Nat),
      generateParagraph { c with minWords := some 0 } e k =
        generateParagraph { c with minWords := none } e k) ∧
    (∀ c : FieldConstraints, paragraphCount { c with minWords := some 0 } = 3) := by
  refine ⟨?_, ?_, ?_, ?_, ?_, ?_, ?_, ?_, ?_, ?_⟩
  · intro c e k; simp [generateNumber, jsOrQ]
  · intro c e k; simp [generateNumber, jsOrQ]
  · intro c e k; simp [generateNumber, jsOrI]
  · intro c r; simp [arrayItemCount, jsOrI]
  · intro c r; simp [arrayItemCount, jsOrI]
  · intro c r hmin hmax hr0 hr1
    have h1 : jsOrI c.minItems 1 = 1 := by rw [hmin]; rfl
    have h5 : jsOrI c.maxItems 5 = 5 := by rw [hmax]; rfl
    have := arrayItemCount_bounds c r hr0 hr1 (by rw [h1, h5]; norm_num)
    rw [h1, h5] at this
    exact this
  · intro c e k; simp [generateString, padMin]
  · intro c e k; simp [generateString, truncMax]
  · intro c e k; simp [generateParagraph, paragraphCount]
  · intro c; simp [paragraphCount]

/-- Claim C10 witness.  With `minItems: 0` (and `maxItems` absent) the item
count at draw `0` is within the default range `[1, 5]`. -/
theorem claim10_witness :
    1 ≤ arrayItemCount { minItems := some 0 } 0 ∧
      arrayItemCount { minItems := some 0 } 0 ≤ 5 :=
  claim10_zero_constraints.2.2.2.2.2.1 { minItems := some 0 } 0 rfl rfl
    (by norm_num) (by norm_num)

end Mockel
